import Mathlib

/-!
# Verification of the order-service / payment-service core logic

Shallow embedding of the order lifecycle state machine
(`src/services/order-service/src/services/order.service.ts`), the M-Pesa
payment gateway client (`MpesaService`, `src/unnamed/part_005`), the
transaction ledger repository (`TransactionRepository`,
`src/unnamed/part_008`) and the webhook callback endpoint
(`src/services/payment-service/src/index.ts`).

Conventions:
* TypeScript numbers are modelled as `ℚ` (the claims never exercise
  float rounding); machine strings as `String`.
* Fallible TypeScript code (`throw`) is modelled with `Except String`.
* The document store is modelled as an association list; external HTTP
  collaborators (gateway, inventory) are oracles passed as parameters.
* `Date` timestamps that the claims mention (`cancelledAt`) are modelled
  as an explicit `now : Nat` parameter; timestamps the claims never
  inspect (`createdAt`/`updatedAt`) are omitted from the structures.
-/

namespace ECommerce

/-- Order status enumeration, from `src/unnamed/part_000` (`OrderStatus`). -/
inductive OrderStatus
  | pending | confirmed | processing | shipped
  | delivered | cancelled | refunded | failed
  deriving DecidableEq, Repr

/-- Payment status enumeration, from `src/unnamed/part_000` (`PaymentStatus`). -/
inductive PaymentStatus
  | pending | paid | failed | refunded | partially_refunded
  deriving DecidableEq, Repr

/-- Shipping status enumeration (claim-relevant subset is just `pending`),
from `src/unnamed/part_000` (`ShippingStatus`). -/
inductive ShippingStatus
  | pending | processing | shipped | in_transit
  | out_for_delivery | delivered | failed | returned
  deriving DecidableEq, Repr

/-- Rendering of an order status as in the TypeScript enum values,
used to build error messages. -/
def OrderStatus.toStr : OrderStatus → String
  | .pending => "pending"
  | .confirmed => "confirmed"
  | .processing => "processing"
  | .shipped => "shipped"
  | .delivered => "delivered"
  | .cancelled => "cancelled"
  | .refunded => "refunded"
  | .failed => "failed"

/-- One ordered line item; claim-relevant fields of `OrderItemSchema`
(`src/unnamed/part_000`). -/
structure OrderItem where
  productId : String
  quantity : ℚ
  price : ℚ
  deriving DecidableEq, Repr

/-- An order document; claim-relevant fields of the `Order` interface
(`src/unnamed/part_000`), plus the nested `statusHistory` map that
`OrderRepository.updateStatus` writes (dotted-path entries keyed by
status name; the entry's timestamp is omitted like all other
timestamps, keeping its `reason`). -/
structure Order where
  id : String
  orderNumber : String
  userId : String
  items : List OrderItem
  status : OrderStatus
  paymentStatus : PaymentStatus
  shippingStatus : ShippingStatus
  subtotal : ℚ
  shippingCost : ℚ
  discount : ℚ
  tax : ℚ
  total : ℚ
  cancelledAt : Option Nat
  cancelledBy : Option String
  cancellationReason : Option String
  statusHistory : List (OrderStatus × String)
  deriving DecidableEq, Repr

/-- One document of the denormalized `user_orders` index collection,
as written by `OrderRepository.create` (`validation.ts` lines 74-82)
and updated by `updateStatus` (lines 174-176). -/
structure UserOrderIndexEntry where
  userId : String
  orderId : String
  orderNumber : String
  status : OrderStatus
  total : ℚ
  deriving DecidableEq, Repr

/-- A Firestore-style collection: documents keyed by id. -/
abbrev Collection (α : Type) := List (String × α)

/-- Reading a document by key (`collection.doc(id).get()`). -/
def docLookup {α : Type} (l : Collection α) (key : String) : Option α :=
  (l.find? (fun p => p.1 == key)).map (·.2)

/-- `transaction.set` / `docRef.set`: create or overwrite the document
under the key. -/
def setDoc {α : Type} (l : Collection α) (key : String) (v : α) :
    Collection α :=
  (key, v) :: l.filter (fun p => !(p.1 == key))

/-- `collection.doc(id).update({...})` once the document is known to
exist: merge the change `f` into the document under the key, leaving
every other document untouched. -/
def docMerge {α : Type} (l : Collection α) (key : String) (f : α → α) :
    Collection α :=
  l.map (fun p => if p.1 == key then (p.1, f p.2) else p)

/-- The persistent state of the order service: the `orders` collection
and the `user_orders` secondary index, the two collections
`OrderRepository` touches (`validation.ts` lines 48-49). -/
structure OrderDb where
  orders : Collection Order
  userOrders : Collection UserOrderIndexEntry
  deriving Repr

/-- `OrderRepository.findById` (`validation.ts` lines 89-92): key
lookup in the `orders` collection. -/
def findById (db : OrderDb) (orderId : String) : Option Order :=
  docLookup db.orders orderId

/-- The key of a `user_orders` index document:
`` `${userId}_${orderId}` `` (`validation.ts` lines 74, 175). -/
def indexKey (userId orderId : String) : String :=
  userId ++ "_" ++ orderId

/-- The `validTransitions` table of
`OrderService.validateStatusTransition`
(`order.service.ts` lines 163-173), transcribed row by row. -/
def validTransitions : OrderStatus → List OrderStatus
  | .pending => [.confirmed, .cancelled, .failed]
  | .confirmed => [.processing, .cancelled, .refunded]
  | .processing => [.shipped, .cancelled]
  | .shipped => [.delivered, .cancelled]
  | .delivered => [.refunded]
  | .cancelled => []
  | .refunded => []
  | .failed => [.pending, .cancelled]

/-- Error message thrown by `validateStatusTransition`. -/
def invalidTransitionMsg (current next : OrderStatus) : String :=
  "Cannot transition from " ++ current.toStr ++ " to " ++ next.toStr

/-- `OrderService.validateStatusTransition`: throws unless `next` is
listed under `current` in the table. -/
def validateStatusTransition (current next : OrderStatus) :
    Except String Unit :=
  if (validTransitions current).contains next then .ok ()
  else .error (invalidTransitionMsg current next)

/-- The transition table of spec §3, written from the spec's own rows
(to be compared with the source's `validTransitions`). -/
def specTransitionTable : OrderStatus → List OrderStatus
  | .pending => [.confirmed, .cancelled, .failed]
  | .confirmed => [.processing, .cancelled, .refunded]
  | .processing => [.shipped, .cancelled]
  | .shipped => [.delivered, .cancelled]
  | .delivered => [.refunded]
  | .cancelled => []
  | .refunded => []
  | .failed => [.pending, .cancelled]

/-- Whether spec §3 lists `next` as a legal successor of `current`. -/
def specAllows (current next : OrderStatus) : Bool :=
  (specTransitionTable current).contains next

/-- The order-document write of `OrderRepository.updateStatus`
(`validation.ts` lines 167-171): set `status`, and — only when `reason`
is truthy (present and non-empty, per the `reason && {...}` spread) —
set the `` statusHistory.${status} `` entry to the reason, overwriting
any earlier entry under that status name. -/
def statusDocUpdate (o : Order) (status : OrderStatus)
    (reason : Option String) : Order :=
  { o with
    status := status
    statusHistory :=
      match reason with
      | none => o.statusHistory
      | some r =>
        if r == "" then o.statusHistory
        else (status, r) :: o.statusHistory.filter (fun p => !(p.1 == status)) }

/-- `OrderRepository.updateStatus` (`validation.ts` lines 163-177):
load the order (throw `Order not found` if absent), update the order
document, then update the `user_orders` index document under
`` `${userId}_${id}` `` with the new status.  The index update runs
*after* the order write, so a missing index document leaves the order
document already written (Firestore `update` rejects on a missing
document); the returned state reflects that partial write. -/
def orderRepoUpdateStatus (db : OrderDb) (id : String)
    (status : OrderStatus) (reason : Option String) :
    OrderDb × Except String Unit :=
  match docLookup db.orders id with
  | none => (db, .error "Order not found")
  | some order =>
    let db1 : OrderDb :=
      { db with orders :=
          docMerge db.orders id (fun d => statusDocUpdate d status reason) }
    match docLookup db1.userOrders (indexKey order.userId id) with
    | none =>
      (db1, .error ("No document to update: " ++ indexKey order.userId id))
    | some _ =>
      let userOrders' :=
        docMerge db1.userOrders (indexKey order.userId id)
          (fun e => { e with status := status })
      ({ db1 with userOrders := userOrders' }, .ok ())

/-- `OrderService.updateOrderStatus` (`order.service.ts` lines 77-90):
load, validate the transition, persist via
`OrderRepository.updateStatus`, return the refreshed order.  The
resulting database state is returned alongside the outcome. -/
def updateOrderStatus (db : OrderDb) (orderId : String)
    (status : OrderStatus) (reason : Option String) :
    OrderDb × Except String Order :=
  match findById db orderId with
  | none => (db, .error "Order not found")
  | some order =>
    match validateStatusTransition order.status status with
    | .error e => (db, .error e)
    | .ok _ =>
      match orderRepoUpdateStatus db orderId status reason with
      | (db', .error e) => (db', .error e)
      | (db', .ok _) =>
        match findById db' orderId with
        | none => (db', .error "Order not found")
        | some refreshed => (db', .ok refreshed)

/-- The fields of the `Partial<Order>` object `cancelOrder` passes to
`OrderRepository.update` (`order.service.ts` lines 127-132); `none`
means the field is absent from the update object. -/
structure OrderUpdate where
  status : Option OrderStatus
  cancelledAt : Option Nat
  cancelledBy : Option String
  cancellationReason : Option String
  deriving DecidableEq, Repr

/-- The Firestore field merge `doc(id).update({...data, updatedAt})`:
fields present in the update overwrite the document, absent fields are
untouched. -/
def applyOrderUpdate (o : Order) (u : OrderUpdate) : Order :=
  { o with
    status := u.status.getD o.status
    cancelledAt := (u.cancelledAt.map some).getD o.cancelledAt
    cancelledBy := (u.cancelledBy.map some).getD o.cancelledBy
    cancellationReason :=
      (u.cancellationReason.map some).getD o.cancellationReason }

/-- `OrderRepository.update` (`validation.ts` lines 154-161): merge the
partial update into the order document; Firestore's `update` rejects
when the document does not exist. -/
def orderRepoUpdate (db : OrderDb) (id : String) (u : OrderUpdate) :
    OrderDb × Except String Unit :=
  match docLookup db.orders id with
  | none => (db, .error ("No document to update: " ++ id))
  | some _ =>
    ({ db with orders := docMerge db.orders id (fun d => applyOrderUpdate d u) },
     .ok ())

/-- Result of a successful `cancelOrder`: the refreshed order and
whether a refund request was issued to the payment collaborator. -/
structure CancelResult where
  order : Order
  refundRequested : Bool
  deriving Repr

/-- `OrderService.cancelOrder` (`order.service.ts` lines 118-143): load,
reject unless the current status is `pending` or `confirmed`, persist
the cancellation fields via `OrderRepository.update`, release inventory
(best-effort, not modelled as it cannot fail the operation), and issue
a refund request iff the *loaded* order's `paymentStatus` is `paid`.
The resulting database state is returned alongside the outcome. -/
def cancelOrder (db : OrderDb) (orderId : String) (reason : String)
    (cancelledBy : String) (now : Nat) :
    OrderDb × Except String CancelResult :=
  match findById db orderId with
  | none => (db, .error "Order not found")
  | some order =>
    if (["pending", "confirmed"].contains order.status.toStr) then
      match orderRepoUpdate db orderId
          { status := some .cancelled
            cancelledAt := some now
            cancelledBy := some cancelledBy
            cancellationReason := some reason } with
      | (db', .error e) => (db', .error e)
      | (db', .ok _) =>
        match findById db' orderId with
        | none => (db', .error "Order not found")
        | some refreshed =>
          (db', .ok { order := refreshed
                      refundRequested := order.paymentStatus = .paid })
    else (db, .error "Order cannot be cancelled at this stage")

/-- Claim-relevant fields of `CreateOrderRequest`
(`CreateOrderSchema`, `src/unnamed/part_000`): client-supplied items,
cost components and totals. -/
structure CreateOrderRequest where
  userId : String
  items : List OrderItem
  shippingCost : ℚ
  discount : ℚ
  tax : ℚ
  subtotal : ℚ
  total : ℚ
  deriving Repr

/-- `OrderService.calculateTotals` (`order.service.ts` lines 181-193):
server-side recomputation of subtotal (reduce over `price * quantity`)
and total. -/
def calculateTotals (request : CreateOrderRequest) : ℚ × ℚ :=
  let subtotal := request.items.foldl
    (fun sum item => sum + item.price * item.quantity) 0
  let total := subtotal + request.shippingCost - request.discount
    + request.tax
  (subtotal, total)

/-- `OrderRepository.create` (`validation.ts` lines 52-86): build the
order document from generated id and order number, the defaults
`status/paymentStatus/shippingStatus = pending` and the spread
`...orderData` — the object `createOrder` passes carries none of the
three status fields (it is `{...request, subtotal, total,
billingAddress, metadata}`), so the pending defaults survive — then
persist the order document and the `user_orders` index entry
(`userId/orderId/orderNumber/status/total`) in one transaction.
`newId`/`orderNumber` stand for the generated `orderRef.id` and
`generateOrderNumber()` value; timestamps and the
billing-address/metadata blobs are omitted as never inspected by the
claims. -/
def orderRepoCreate (db : OrderDb) (request : CreateOrderRequest)
    (calcSubtotal calcTotal : ℚ) (newId orderNumber : String) :
    OrderDb × Order :=
  let order : Order :=
    { id := newId
      orderNumber := orderNumber
      status := .pending
      paymentStatus := .pending
      shippingStatus := .pending
      userId := request.userId
      items := request.items
      subtotal := calcSubtotal
      shippingCost := request.shippingCost
      discount := request.discount
      tax := request.tax
      total := calcTotal
      cancelledAt := none
      cancelledBy := none
      cancellationReason := none
      statusHistory := [] }
  let entry : UserOrderIndexEntry :=
    { userId := order.userId
      orderId := order.id
      orderNumber := order.orderNumber
      status := order.status
      total := order.total }
  ({ orders := setDoc db.orders newId order
     userOrders := setDoc db.userOrders (indexKey order.userId order.id)
       entry },
   order)

/-- `OrderService.createOrder` (`order.service.ts` lines 20-55).
External collaborators are oracles: `inventoryValid` is the outcome of
the inventory validation call (step 1; a failed or unreachable
validation throws), `reserveOk` the outcome of the reservation call
(step 4; its failure is caught inside `reserveInventory` and only
logged, so it does not influence the result).  The order is persisted
by `OrderRepository.create` with the server-recomputed subtotal and
total. -/
def createOrder (db : OrderDb) (request : CreateOrderRequest)
    (inventoryValid : Bool) (reserveOk : Bool)
    (newId orderNumber : String) : OrderDb × Except String Order :=
  if !inventoryValid then (db, .error "Failed to validate inventory")
  else
    let calculated := calculateTotals request
    match orderRepoCreate db request calculated.1 calculated.2 newId
        orderNumber with
    | (db', order) =>
      -- reserveInventory swallows its own failure: `reserveOk` is ignored
      let _ := reserveOk
      (db', .ok order)

/-! ## Payment service: transaction ledger and M-Pesa gateway client -/

/-- A JSON primitive value as it appears in gateway callbacks and in the
dynamically-typed ledger fields (`item.Value`, `ResultCode`).  JavaScript
strict equality `===` between a string and a number is false, which the
derived `DecidableEq` reproduces. -/
inductive JVal
  | s (v : String)
  | n (v : ℚ)
  deriving DecidableEq, Repr

/-- JavaScript `.toString()` on a callback value (the claims only apply
it to the integral values `"0"`/`0`, where `ℚ`'s rendering agrees with
JavaScript's). -/
def JVal.toStr : JVal → String
  | .s v => v
  | .n v => toString v

/-- Transaction lifecycle status (`src/unnamed/part_008`, `Transaction`). -/
inductive TxStatus
  | initiated | pending | completed | failed | cancelled
  deriving DecidableEq, Repr

/-- Gateway environment tag (`src/unnamed/part_007`, `MpesaConfig`). -/
inductive MpesaEnvironment
  | sandbox | production
  deriving DecidableEq, Repr

/-- One named item of `stkCallback.CallbackMetadata.Item`. -/
structure CallbackItem where
  name : String
  value : JVal
  deriving DecidableEq, Repr

/-- The `Body.stkCallback` structure of an M-Pesa callback.
`callbackMetadata` is `none` when `CallbackMetadata?.Item` is absent. -/
structure StkCallback where
  checkoutRequestID : String
  resultCode : JVal
  resultDesc : String
  callbackMetadata : Option (List CallbackItem)
  deriving DecidableEq, Repr

/-- An inbound callback request body; `stkCallback = none` models a
payload without `Body.stkCallback`. -/
structure CallbackBody where
  stkCallback : Option StkCallback
  deriving DecidableEq, Repr

/-- A payment ledger entry (`Transaction` interface,
`src/unnamed/part_008`); `createdAt`/`updatedAt` and the raw
`queryResponse` blob are omitted (never inspected by the claims). -/
structure Transaction where
  orderId : String
  merchantRequestId : Option String
  checkoutRequestId : Option String
  phone : JVal
  amount : JVal
  status : TxStatus
  responseCode : Option String
  responseDescription : Option String
  resultCode : Option String
  resultDescription : Option String
  mpesaReceiptNumber : Option JVal
  transactionDate : Option JVal
  errorMessage : Option String
  callbackData : Option CallbackBody
  environment : MpesaEnvironment
  deriving DecidableEq, Repr

/-- A partial-field update (`Partial<Transaction>`) as passed to
`TransactionRepository.updateTransaction`; `none` means the field is
absent from the update object. -/
structure TxUpdate where
  status : Option TxStatus
  resultCode : Option String
  resultDescription : Option String
  callbackData : Option CallbackBody
  amount : Option JVal
  mpesaReceiptNumber : Option JVal
  transactionDate : Option JVal
  phone : Option JVal
  deriving DecidableEq, Repr

/-- The empty update object `{}`. -/
def emptyTxUpdate : TxUpdate :=
  { status := none, resultCode := none, resultDescription := none
    callbackData := none, amount := none, mpesaReceiptNumber := none
    transactionDate := none, phone := none }

/-- Firestore `docRef.update({...updates})`: fields present in the
update overwrite the document, absent fields are untouched. -/
def applyUpdate (t : Transaction) (u : TxUpdate) : Transaction :=
  { t with
    status := u.status.getD t.status
    resultCode := (u.resultCode.map some).getD t.resultCode
    resultDescription := (u.resultDescription.map some).getD t.resultDescription
    callbackData := (u.callbackData.map some).getD t.callbackData
    amount := u.amount.getD t.amount
    mpesaReceiptNumber := (u.mpesaReceiptNumber.map some).getD t.mpesaReceiptNumber
    transactionDate := (u.transactionDate.map some).getD t.transactionDate
    phone := u.phone.getD t.phone }

/-- Whether a ledger row matches a checkout-request id (the
`where('checkoutRequestId','==',ck)` filter). -/
def txMatches (ck : String) (t : Transaction) : Bool :=
  t.checkoutRequestId == some ck

/-- `TransactionRepository.findByCheckoutRequestId`
(`src/unnamed/part_008` lines 62-74): first row matching the id, or
`null`. -/
def findByCheckoutRequestId (ledger : List Transaction) (ck : String) :
    Option Transaction :=
  ledger.find? (txMatches ck)

/-- `TransactionRepository.updateTransaction` (`src/unnamed/part_008`
lines 45-60): merge the partial update into the first row matching the
checkout-request id; throw if no row matches. -/
def updateTransaction (ledger : List Transaction) (ck : String)
    (u : TxUpdate) : Except String (List Transaction) :=
  match ledger with
  | [] => .error ("Transaction not found: " ++ ck)
  | t :: ts =>
    if txMatches ck t then .ok (applyUpdate t u :: ts)
    else (updateTransaction ts ck u).map (t :: ·)

/-- One iteration of the `items.forEach` loop of the callback handler
(`payment-service/src/index.ts` lines 237-242): four independent
name checks, each overwriting its field of `updateData`. -/
def applyCallbackItem (u : TxUpdate) (item : CallbackItem) : TxUpdate :=
  let u1 := if item.name == "Amount"
    then { u with amount := some item.value } else u
  let u2 := if item.name == "MpesaReceiptNumber"
    then { u1 with mpesaReceiptNumber := some item.value } else u1
  let u3 := if item.name == "TransactionDate"
    then { u2 with transactionDate := some item.value } else u2
  if item.name == "PhoneNumber"
    then { u3 with phone := some item.value } else u3

/-- The `updateData` object built by the `forEach` loop over the
callback metadata items. -/
def extractCallbackUpdate (items : List CallbackItem) : TxUpdate :=
  items.foldl applyCallbackItem emptyTxUpdate

/-- The value the `forEach` loop leaves for one field: the `Value` of
the last item bearing the given `Name`, if any. -/
def lastValue (items : List CallbackItem) (name : String) : Option JVal :=
  items.foldl
    (fun acc item => if item.name == name then some item.value else acc)
    none

/-- The fixed acknowledgement `{ResultCode: 0, ResultDesc: "Success"}`
returned to the payment network. -/
structure CallbackAck where
  resultCode : Int
  resultDesc : String
  deriving DecidableEq, Repr

/-- The acknowledgement value both `return` sites of the callback
endpoint produce. -/
def successAck : CallbackAck := { resultCode := 0, resultDesc := "Success" }

/-- The `POST /api/payments/mpesa/callback` endpoint
(`payment-service/src/index.ts` lines 200-283).  Returns the ledger
after processing and the HTTP response body.  The `try/catch` that
swallows any exception and still acknowledges is modelled by the
`.error` branches of `updateTransaction` also producing `successAck`. -/
def mpesaCallback (ledger : List Transaction) (cb : CallbackBody) :
    List Transaction × CallbackAck :=
  match cb.stkCallback with
  | none => (ledger, successAck)
  | some stk =>
    match findByCheckoutRequestId ledger stk.checkoutRequestID with
    | none => (ledger, successAck)
    | some _ =>
      let u1 : TxUpdate :=
        { status := some (if stk.resultCode == .s "0"
                          then .completed else .failed)
          resultCode := some stk.resultCode.toStr
          resultDescription := some stk.resultDesc
          callbackData := some cb
          amount := none, mpesaReceiptNumber := none
          transactionDate := none, phone := none }
      match updateTransaction ledger stk.checkoutRequestID u1 with
      | .error _ => (ledger, successAck)
      | .ok ledger1 =>
        if stk.resultCode == .s "0" then
          match stk.callbackMetadata with
          | none => (ledger1, successAck)
          | some items =>
            match updateTransaction ledger1 stk.checkoutRequestID
                (extractCallbackUpdate items) with
            | .error _ => (ledger1, successAck)
            | .ok ledger2 => (ledger2, successAck)
        else (ledger1, successAck)

/-- `phone.replace(/\D/g, '')`: keep only the digits (as the character
list of the resulting string; string prefix/length tests below work on
this list). -/
def digitsOf (phone : String) : List Char :=
  phone.data.filter Char.isDigit

/-- The error message of `validateAndFormatPhone`. -/
def invalidPhoneMsg : String :=
  "Invalid phone number format. Use: 2547XXXXXXXX"

/-- The branch structure of `validateAndFormatPhone` on the cleaned
digit string: rewrite `0…`/`7…` shapes with the `254` country prefix,
accept an already-prefixed 12-digit string, reject everything else.
`startsWith`/`length`/`substring(1)`/`'254' + s` are expressed on the
character list. -/
def formatDigits (cleaned : List Char) : Except String String :=
  if "0".data.isPrefixOf cleaned && cleaned.length == 10 then
    .ok (String.mk ("254".data ++ cleaned.drop 1))
  else if "7".data.isPrefixOf cleaned && cleaned.length == 9 then
    .ok (String.mk ("254".data ++ cleaned))
  else if !("254".data.isPrefixOf cleaned) || cleaned.length != 12 then
    .error invalidPhoneMsg
  else
    .ok (String.mk cleaned)

/-- `MpesaService.validateAndFormatPhone` (`src/unnamed/part_005` lines
275-293): strip non-digits, then dispatch on the digit shape. -/
def validateAndFormatPhone (phone : String) : Except String String :=
  formatDigits (digitsOf phone)

/-- The phone shapes of spec §4.2 / §8, written from the spec's words
("leading 0 + 9 digits, bare 7 + 8 digits, or an already-prefixed
12-digit string"), as a predicate on the digit string (to be compared
with the source's `validateAndFormatPhone`). -/
def specPhoneShape (d : List Char) : Bool :=
  ("0".data.isPrefixOf d && d.length == 10) ||
  ("7".data.isPrefixOf d && d.length == 9) ||
  ("254".data.isPrefixOf d && d.length == 12)

/-- The two error messages of `validateAmount`. -/
def amountNotPositiveMsg : String := "Amount must be greater than 0"

/-- Production minimum-amount error message of `validateAmount`. -/
def minAmountMsg : String := "Minimum amount for production is KES 10"

/-- `MpesaService.validateAmount` (`src/unnamed/part_005` lines
295-305): positive, at least 10 in production, floored
(`Math.floor`). -/
def validateAmount (env : MpesaEnvironment) (amount : ℚ) :
    Except String ℚ :=
  if amount ≤ 0 then .error amountNotPositiveMsg
  else if env == .production && amount < 10 then .error minAmountMsg
  else .ok (amount.floor : ℤ)

/-- The request body of `initiateSTKPush`
(`STKPushRequest`, `src/unnamed/part_005`; the optional
description/account-reference fields are never inspected by the
claims). -/
structure STKPushRequest where
  phone : String
  amount : ℚ
  orderId : String
  deriving DecidableEq, Repr

/-- The gateway's reply to the push-payment POST, as read by
`initiateSTKPush` (`MerchantRequestID` etc.). -/
structure GatewayResponse where
  merchantRequestID : String
  checkoutRequestID : String
  responseCode : String
  responseDescription : String
  customerMessage : String
  deriving DecidableEq, Repr

/-- The outcome of one `initiateSTKPush` call: the transaction rows it
persisted (in creation order), the number of outbound gateway HTTP
requests it performed (token request + push request), and its return
value or thrown error. -/
structure StkPushOutcome where
  ledger : List Transaction
  networkCalls : Nat
  result : Except String GatewayResponse
  deriving Repr

/-- The error every failure of `initiateSTKPush` is re-raised as
(`STK Push failed: ${...message}`). -/
def stkError (msg : String) : String := "STK Push failed: " ++ msg

/-- The `status: 'failed'` audit row written in the `catch` block of
`initiateSTKPush` (`src/unnamed/part_005` lines 172-179): raw request
phone/amount, the error message, no gateway identifiers. -/
def failedTx (env : MpesaEnvironment) (req : STKPushRequest)
    (msg : String) : Transaction :=
  { orderId := req.orderId
    merchantRequestId := none
    checkoutRequestId := none
    phone := .s req.phone
    amount := .n req.amount
    status := .failed
    responseCode := none
    responseDescription := none
    resultCode := none
    resultDescription := none
    mpesaReceiptNumber := none
    transactionDate := none
    errorMessage := some msg
    callbackData := none
    environment := env }

/-- The `status: 'initiated'` row written on gateway success
(`src/unnamed/part_005` lines 150-160): normalized phone, floored
amount, the gateway's identifiers and response fields. -/
def initiatedTx (env : MpesaEnvironment) (req : STKPushRequest)
    (phone : String) (amount : ℚ) (resp : GatewayResponse) :
    Transaction :=
  { orderId := req.orderId
    merchantRequestId := some resp.merchantRequestID
    checkoutRequestId := some resp.checkoutRequestID
    phone := .s phone
    amount := .n amount
    status := .initiated
    responseCode := some resp.responseCode
    responseDescription := some resp.responseDescription
    resultCode := none
    resultDescription := none
    mpesaReceiptNumber := none
    transactionDate := none
    errorMessage := none
    callbackData := none
    environment := env }

/-- `MpesaService.initiateSTKPush` (`src/unnamed/part_005` lines
92-183).  The external calls are oracles: `auth` is the outcome of
`getAccessToken` (error = the message it throws), `gateway` the outcome
of the push-payment POST.  Every thrown error lands in the `catch`
block, which persists a failed audit row and re-raises with the
`STK Push failed:` prefix.  The timestamp/password pair built between
authentication and the POST does not influence any claim-relevant
output and is not modelled. -/
def initiateSTKPush (env : MpesaEnvironment) (req : STKPushRequest)
    (auth : Except String String)
    (gateway : Except String GatewayResponse) : StkPushOutcome :=
  match validateAndFormatPhone req.phone with
  | .error e =>
    { ledger := [failedTx env req e], networkCalls := 0
      result := .error (stkError e) }
  | .ok phone =>
    match validateAmount env req.amount with
    | .error e =>
      { ledger := [failedTx env req e], networkCalls := 0
        result := .error (stkError e) }
    | .ok amount =>
      match auth with
      | .error e =>
        { ledger := [failedTx env req e], networkCalls := 1
          result := .error (stkError e) }
      | .ok _token =>
        match gateway with
        | .error e =>
          { ledger := [failedTx env req e], networkCalls := 2
            result := .error (stkError e) }
        | .ok resp =>
          { ledger := [initiatedTx env req phone amount resp]
            networkCalls := 2
            result := .ok resp }

/-! ## Concrete sample data (used by the witness theorems) -/

/-- A sample stored order in status `pending`, payment `paid`. -/
def sampleOrder : Order :=
  { id := "ord-1"
    orderNumber := "ORD-1001"
    userId := "user-1"
    items := [{ productId := "prod-1", quantity := 2, price := 100 }]
    status := .pending
    paymentStatus := .paid
    shippingStatus := .pending
    subtotal := 200
    shippingCost := 50
    discount := 10
    tax := 5
    total := 245
    cancelledAt := none
    cancelledBy := none
    cancellationReason := none
    statusHistory := [] }

/-- The `user_orders` index entry for `sampleOrder`. -/
def sampleIndexEntry : UserOrderIndexEntry :=
  { userId := "user-1"
    orderId := "ord-1"
    orderNumber := "ORD-1001"
    status := .pending
    total := 245 }

/-- A one-order database holding `sampleOrder` and its index entry. -/
def sampleDb : OrderDb :=
  { orders := [("ord-1", sampleOrder)]
    userOrders := [("user-1_ord-1", sampleIndexEntry)] }

/-- A sample ledger row in status `initiated` for checkout id `ck-1`. -/
def sampleTx : Transaction :=
  { orderId := "ord-1"
    merchantRequestId := some "mr-1"
    checkoutRequestId := some "ck-1"
    phone := .s "254712345678"
    amount := .n 100
    status := .initiated
    responseCode := some "0"
    responseDescription := some "Success. Request accepted for processing"
    resultCode := none
    resultDescription := none
    mpesaReceiptNumber := none
    transactionDate := none
    errorMessage := none
    callbackData := none
    environment := .sandbox }

/-- A one-row ledger holding `sampleTx`. -/
def sampleLedger : List Transaction := [sampleTx]

/-- A successful gateway reply used to exercise the push path. -/
def sampleGatewayResponse : GatewayResponse :=
  { merchantRequestID := "mr-1"
    checkoutRequestID := "ck-1"
    responseCode := "0"
    responseDescription := "Success. Request accepted for processing"
    customerMessage := "Success. Request accepted for processing" }

/-- The value the metadata merge leaves for one named field: the last
matching item of `CallbackMetadata.Item`, or nothing when the metadata
block is absent. -/
def metadataValue (stk : StkCallback) (name : String) : Option JVal :=
  match stk.callbackMetadata with
  | none => none
  | some items => lastValue items name

/-- A production STK push request with a valid phone and amount 5
(below the production minimum of 10). -/
def lowAmountReq : STKPushRequest :=
  { phone := "0712345678", amount := 5, orderId := "ord-1" }

/-- An STK push request with an invalid phone and amount 0 (both
validations would reject it). -/
def badPhoneZeroAmountReq : STKPushRequest :=
  { phone := "12345", amount := 0, orderId := "ord-1" }

/-- A successful callback for `ck-1` carrying a receipt item. -/
def successStk : StkCallback :=
  { checkoutRequestID := "ck-1"
    resultCode := .s "0"
    resultDesc := "The service request is processed successfully."
    callbackMetadata := some
      [{ name := "MpesaReceiptNumber", value := .s "ABC123" }] }

/-- A callback for `ck-1` whose `ResultCode` is the JSON *number* 0
(not the string `"0"`), carrying a receipt item. -/
def numericZeroStk : StkCallback :=
  { checkoutRequestID := "ck-1"
    resultCode := .n 0
    resultDesc := "The service request is processed successfully."
    callbackMetadata := some
      [{ name := "MpesaReceiptNumber", value := .s "ABC123" }] }

/-! ## Helper lemmas -/

/-- The source's transition table coincides with the table of spec §3. -/
theorem validTransitions_eq_spec (c : OrderStatus) :
    validTransitions c = specTransitionTable c := by
  cases c <;> rfl

/-- Looking a key up after merging a change into that key's document
yields the changed document; other documents are untouched. -/
theorem docLookup_docMerge {α : Type} (l : Collection α) (key : String)
    (f : α → α) :
    docLookup (docMerge l key f) key = (docLookup l key).map f := by
  induction l with
  | nil => rfl
  | cons p ps ih =>
    by_cases hb : (p.1 == key) = true
    · simp only [docMerge, List.map_cons, hb, if_true, docLookup,
        List.find?_cons, beq_self_eq_true, Option.map_some]
      rfl
    · simp only [docMerge, List.map_cons, hb, if_false,
        Bool.false_eq_true, docLookup, List.find?_cons] at *
      exact ih

/-- Looking a key up right after `setDoc` wrote it yields the new
document. -/
theorem docLookup_setDoc {α : Type} (l : Collection α) (key : String)
    (v : α) : docLookup (setDoc l key v) key = some v := by
  simp [docLookup, setDoc, List.find?_cons]

/-- The `['pending','confirmed'].includes` guard of `cancelOrder`,
expressed on the status enumeration. -/
theorem cancellable_guard (s : OrderStatus) :
    (["pending", "confirmed"].contains s.toStr)
      = (s == .pending || s == .confirmed) := by
  cases s <;> rfl

/-- **C1.** For every stored order (whose `user_orders` index entry is
present, as `OrderRepository.create` writes it) and every pair
`(from, to)` of order statuses: if `to` is not listed under `from` in
the transition table of spec §3, `updateOrderStatus` fails with the
invalid-transition error and leaves the stored state unchanged; if the
pair is listed, the transition is accepted and the new status is
persisted and readable back. -/
theorem updateOrderStatus_follows_spec_table (db : OrderDb)
    (orderId : String) (o : Order) (next : OrderStatus)
    (reason : Option String)
    (h : findById db orderId = some o)
    (hidx : (docLookup db.userOrders (indexKey o.userId orderId)).isSome
      = true) :
    (specAllows o.status next = false →
      updateOrderStatus db orderId next reason
        = (db, .error (invalidTransitionMsg o.status next))) ∧
    (specAllows o.status next = true →
      ∃ db', updateOrderStatus db orderId next reason
          = (db', .ok (statusDocUpdate o next reason))
        ∧ findById db' orderId = some (statusDocUpdate o next reason)
        ∧ (statusDocUpdate o next reason).status = next) := by
  have hco : (validTransitions o.status).contains next
      = specAllows o.status next := by
    unfold specAllows; rw [validTransitions_eq_spec]
  have hdoc : docLookup db.orders orderId = some o := h
  constructor
  · intro hrej
    simp only [updateOrderStatus, validateStatusTransition, h]
    rw [hco.trans hrej]
    simp
  · intro hacc
    obtain ⟨e, he⟩ := Option.isSome_iff_exists.mp hidx
    have horders :
        docLookup
          (docMerge db.orders orderId
            (fun d => statusDocUpdate d next reason)) orderId
          = some (statusDocUpdate o next reason) := by
      rw [docLookup_docMerge, hdoc]
      rfl
    have hrepo : orderRepoUpdateStatus db orderId next reason
        = ({ orders := docMerge db.orders orderId
               (fun d => statusDocUpdate d next reason)
             userOrders := docMerge db.userOrders
               (indexKey o.userId orderId)
               (fun en => { en with status := next }) },
           .ok ()) := by
      unfold orderRepoUpdateStatus
      rw [hdoc]
      dsimp only
      rw [he]
    refine ⟨{ orders := docMerge db.orders orderId
                (fun d => statusDocUpdate d next reason)
              userOrders := docMerge db.userOrders
                (indexKey o.userId orderId)
                (fun en => { en with status := next }) },
            ?_, horders, rfl⟩
    simp only [updateOrderStatus, validateStatusTransition, h]
    rw [hco.trans hacc]
    simp [hrepo, findById, horders]

/-- Witness for C1: the sample pending order (with its index entry)
accepts the transition to `confirmed` (listed in the spec table) and
persists it. -/
theorem updateOrderStatus_follows_spec_table_witness :
    (specAllows sampleOrder.status .confirmed = false →
      updateOrderStatus sampleDb "ord-1" .confirmed none
        = (sampleDb,
           .error (invalidTransitionMsg sampleOrder.status .confirmed))) ∧
    (specAllows sampleOrder.status .confirmed = true →
      ∃ db', updateOrderStatus sampleDb "ord-1" .confirmed none
          = (db', .ok (statusDocUpdate sampleOrder .confirmed none))
        ∧ findById db' "ord-1"
          = some (statusDocUpdate sampleOrder .confirmed none)
        ∧ (statusDocUpdate sampleOrder .confirmed none).status
          = .confirmed) :=
  updateOrderStatus_follows_spec_table sampleDb "ord-1" sampleOrder
    .confirmed none rfl rfl

/-- **C8.** `cancelOrder` fails for every order whose status is outside
{pending, confirmed}; inside those it succeeds, sets
`cancelled`/`cancelledAt`/`cancelledBy`/`cancellationReason`, persists
the result, and requests a refund iff the loaded order's
`paymentStatus` was `paid`. -/
theorem cancelOrder_spec (db : OrderDb)
    (orderId reason actor : String) (now : Nat) (o : Order)
    (h : findById db orderId = some o) :
    ((o.status ≠ .pending ∧ o.status ≠ .confirmed) →
      cancelOrder db orderId reason actor now
        = (db, .error "Order cannot be cancelled at this stage")) ∧
    ((o.status = .pending ∨ o.status = .confirmed) →
      ∃ db' r, cancelOrder db orderId reason actor now = (db', .ok r) ∧
        r.order.status = .cancelled ∧
        r.order.cancelledAt = some now ∧
        r.order.cancelledBy = some actor ∧
        r.order.cancellationReason = some reason ∧
        findById db' orderId = some r.order ∧
        (r.refundRequested = true ↔ o.paymentStatus = .paid)) := by
  have hdoc : docLookup db.orders orderId = some o := h
  constructor
  · intro hne
    have hg : (["pending", "confirmed"].contains o.status.toStr) = false := by
      rw [cancellable_guard]
      simp [hne.1, hne.2]
    simp only [cancelOrder, h]
    rw [hg]
    simp
  · intro hmem
    have hg : (["pending", "confirmed"].contains o.status.toStr) = true := by
      rw [cancellable_guard]
      rcases hmem with hm | hm <;> simp [hm]
    have horders :
        docLookup
          (docMerge db.orders orderId
            (fun d => applyOrderUpdate d
              { status := some .cancelled
                cancelledAt := some now
                cancelledBy := some actor
                cancellationReason := some reason })) orderId
          = some (applyOrderUpdate o
              { status := some .cancelled
                cancelledAt := some now
                cancelledBy := some actor
                cancellationReason := some reason }) := by
      rw [docLookup_docMerge, hdoc]
      rfl
    have hrepo : orderRepoUpdate db orderId
        { status := some .cancelled
          cancelledAt := some now
          cancelledBy := some actor
          cancellationReason := some reason }
        = ({ db with
              orders := docMerge db.orders orderId
                (fun d => applyOrderUpdate d
                  { status := some .cancelled
                    cancelledAt := some now
                    cancelledBy := some actor
                    cancellationReason := some reason }) },
           .ok ()) := by
      unfold orderRepoUpdate
      rw [hdoc]
    simp only [cancelOrder, h]
    rw [hg, if_pos (show (true : Bool) = true from rfl)]
    rw [hrepo]
    dsimp only
    simp only [findById]
    rw [horders]
    refine ⟨_, _, rfl, rfl, rfl, rfl, rfl, horders, ?_⟩
    simp

/-- Witness for C8: the sample pending, paid order is cancelled and a
refund is requested. -/
theorem cancelOrder_spec_witness :
    ((sampleOrder.status ≠ .pending ∧ sampleOrder.status ≠ .confirmed →
      cancelOrder sampleDb "ord-1" "changed my mind" "user-1" 42
        = (sampleDb, .error "Order cannot be cancelled at this stage")) ∧
     (sampleOrder.status = .pending ∨ sampleOrder.status = .confirmed →
      ∃ db' r,
        cancelOrder sampleDb "ord-1" "changed my mind" "user-1" 42
          = (db', .ok r) ∧
        r.order.status = .cancelled ∧
        r.order.cancelledAt = some 42 ∧
        r.order.cancelledBy = some "user-1" ∧
        r.order.cancellationReason = some "changed my mind" ∧
        findById db' "ord-1" = some r.order ∧
        (r.refundRequested = true ↔ sampleOrder.paymentStatus = .paid))) :=
  cancelOrder_spec sampleDb "ord-1" "changed my mind" "user-1"
    42 sampleOrder rfl

/-- Unfolding the server-side subtotal `reduce` into a mapped sum. -/
theorem foldl_price_quantity (items : List OrderItem) :
    ∀ a : ℚ,
      items.foldl (fun sum item => sum + item.price * item.quantity) a
        = a + (items.map (fun i => i.price * i.quantity)).sum := by
  induction items with
  | nil => intro a; simp
  | cons i is ih => intro a; simp [List.foldl, ih, add_assoc]

/-- **C9.** The server-recomputed subtotal is the sum of
`price * quantity` over the items, the total is
`subtotal + shippingCost - discount + tax`, and the spec's concrete
example yields subtotal 200 and total 245. -/
theorem calculateTotals_spec (request : CreateOrderRequest) :
    (calculateTotals request).1
      = (request.items.map (fun i => i.price * i.quantity)).sum ∧
    (calculateTotals request).2
      = (request.items.map (fun i => i.price * i.quantity)).sum
        + request.shippingCost - request.discount + request.tax ∧
    calculateTotals
      { userId := "user-1"
        items := [{ productId := "prod-1", quantity := 2, price := 100 }]
        shippingCost := 50
        discount := 10
        tax := 5
        subtotal := 200
        total := 245 } = (200, 245) := by
  refine ⟨?_, ?_, ?_⟩
  · simp [calculateTotals, foldl_price_quantity]
  · simp [calculateTotals, foldl_price_quantity]
  · norm_num [calculateTotals, List.foldl]

/-- **C10.** With inventory validation passing and the reservation call
failing, `createOrder` still succeeds: the reservation outcome does not
influence the result at all, the order is returned, and it is stored
(order document and per-user index entry) and retrievable with status
`pending`. -/
theorem createOrder_reserve_failure_no_rollback (db : OrderDb)
    (request : CreateOrderRequest) (newId orderNumber : String) :
    ∃ db' order,
      createOrder db request true false newId orderNumber
        = (db', .ok order) ∧
      findById db' newId = some order ∧
      (docLookup db'.userOrders (indexKey order.userId newId)).isSome
        = true ∧
      order.status = .pending ∧
      createOrder db request true false newId orderNumber
        = createOrder db request true true newId orderNumber := by
  refine ⟨_, _, rfl, ?_, ?_, rfl, rfl⟩
  · show docLookup (setDoc db.orders newId _) newId = some _
    rw [docLookup_setDoc]
  · show (docLookup (setDoc db.userOrders _ _) _).isSome = true
    rw [docLookup_setDoc]
    rfl

/-- **C6.** Phone normalization maps `"0712345678"` and `"712345678"`
to `"254712345678"`, leaves `"254712345678"` unchanged, rejects
`"12345"`, and in general accepts an input iff its digit string matches
one of the three shapes of spec §4.2. -/
theorem validateAndFormatPhone_spec :
    validateAndFormatPhone "0712345678" = .ok "254712345678" ∧
    validateAndFormatPhone "712345678" = .ok "254712345678" ∧
    validateAndFormatPhone "254712345678" = .ok "254712345678" ∧
    validateAndFormatPhone "12345" = .error invalidPhoneMsg ∧
    ∀ phone : String,
      (∃ r, validateAndFormatPhone phone = .ok r)
        ↔ specPhoneShape (digitsOf phone) = true := by
  refine ⟨rfl, rfl, rfl, rfl, ?_⟩
  intro phone
  unfold validateAndFormatPhone formatDigits
  split_ifs with h1 h2 h3
  · simp [specPhoneShape, h1]
  · simp [specPhoneShape, h2]
  · constructor
    · rintro ⟨r, hr⟩
      exact hr.elim
    · intro hs
      exfalso
      simp only [specPhoneShape, Bool.or_eq_true, Bool.and_eq_true,
        beq_iff_eq] at hs h1 h2
      simp only [Bool.or_eq_true, Bool.not_eq_true', bne_iff_ne,
        beq_iff_eq] at h3
      rcases hs with (hs | hs) | hs
      · exact h1 hs
      · exact h2 hs
      · rcases h3 with h3 | h3
        · rw [h3] at hs
          exact Bool.false_ne_true hs.1
        · exact h3 hs.2
  · constructor
    · intro _
      simp only [Bool.or_eq_true, Bool.not_eq_true', bne_iff_ne,
        beq_iff_eq, not_or] at h3
      push_neg at h3
      have hpre : ("254".data.isPrefixOf (digitsOf phone)) = true :=
        Bool.ne_false_iff.mp h3.1
      simp [specPhoneShape, hpre, h3.2]
    · intro _
      exact ⟨_, rfl⟩

/-- **C5 counterexample.** On a request with amount 0 *and* an invalid
phone, `initiateSTKPush` fails with the phone-format error, not the
amount error: the phone check runs first, refuting "the amount check
precedes the phone check". -/
theorem initiateSTKPush_phone_checked_first :
    (initiateSTKPush .sandbox badPhoneZeroAmountReq
        (.ok "token") (.ok sampleGatewayResponse)).result
      = .error (stkError invalidPhoneMsg) ∧
    badPhoneZeroAmountReq.amount = 0 ∧
    invalidPhoneMsg ≠ amountNotPositiveMsg := by
  refine ⟨rfl, rfl, ?_⟩
  decide

/-- **C5 (amended).** `initiateSTKPush` validates the phone first, then
the amount: for every request whose phone passes normalization, an
amount of 0 or negative fails with the positive-amount ValidationError
before any network call, and in production mode a positive amount below
10 fails with the minimum-amount ValidationError before any network
call. -/
theorem initiateSTKPush_amount_validation (env : MpesaEnvironment)
    (req : STKPushRequest) (auth : Except String String)
    (gateway : Except String GatewayResponse) (phone : String)
    (hp : validateAndFormatPhone req.phone = .ok phone) :
    (req.amount ≤ 0 →
      (initiateSTKPush env req auth gateway).result
          = .error (stkError amountNotPositiveMsg) ∧
      (initiateSTKPush env req auth gateway).networkCalls = 0) ∧
    (0 < req.amount → req.amount < 10 → env = .production →
      (initiateSTKPush env req auth gateway).result
          = .error (stkError minAmountMsg) ∧
      (initiateSTKPush env req auth gateway).networkCalls = 0) := by
  constructor
  · intro hle
    have hv : validateAmount env req.amount = .error amountNotPositiveMsg := by
      unfold validateAmount
      rw [if_pos hle]
    simp [initiateSTKPush, hp, hv]
  · intro hpos hlt henv
    have hv : validateAmount env req.amount = .error minAmountMsg := by
      unfold validateAmount
      rw [if_neg (not_le.mpr hpos), henv]
      simp [hlt]
    simp [initiateSTKPush, hp, hv]

/-- Witness for the amended C5: amount 5 in production with a valid
phone fails with the minimum-amount error and zero network calls. -/
theorem initiateSTKPush_amount_validation_witness :
    (initiateSTKPush .production lowAmountReq
        (.ok "token") (.ok sampleGatewayResponse)).result
      = .error (stkError minAmountMsg) ∧
    (initiateSTKPush .production lowAmountReq
        (.ok "token") (.ok sampleGatewayResponse)).networkCalls = 0 :=
  (initiateSTKPush_amount_validation .production lowAmountReq
      (.ok "token") (.ok sampleGatewayResponse) "254712345678" rfl).2
    (by norm_num [lowAmountReq]) (by norm_num [lowAmountReq]) rfl

/-- **C7.** Every `initiateSTKPush` call persists exactly one ledger
row: on success an `initiated` row carrying the gateway's identifiers
(which are also the returned ones), on any failure a `failed` row
carrying the error message, which is re-raised with the
`STK Push failed:` prefix. -/
theorem initiateSTKPush_audit_trail (env : MpesaEnvironment)
    (req : STKPushRequest) (auth : Except String String)
    (gateway : Except String GatewayResponse) :
    match (initiateSTKPush env req auth gateway).result with
    | .ok resp =>
        ∃ phone amount,
          (initiateSTKPush env req auth gateway).ledger
            = [initiatedTx env req phone amount resp] ∧
          (initiatedTx env req phone amount resp).status = .initiated ∧
          (initiatedTx env req phone amount resp).merchantRequestId
            = some resp.merchantRequestID ∧
          (initiatedTx env req phone amount resp).checkoutRequestId
            = some resp.checkoutRequestID
    | .error e =>
        ∃ msg,
          (initiateSTKPush env req auth gateway).ledger
            = [failedTx env req msg] ∧
          (failedTx env req msg).status = .failed ∧
          (failedTx env req msg).errorMessage = some msg ∧
          e = stkError msg := by
  unfold initiateSTKPush
  rcases hph : validateAndFormatPhone req.phone with e | phone
  · exact ⟨e, rfl, rfl, rfl, rfl⟩
  · rcases ham : validateAmount env req.amount with e | amount
    · exact ⟨e, rfl, rfl, rfl, rfl⟩
    · rcases auth with e | tok
      · exact ⟨e, rfl, rfl, rfl, rfl⟩
      · rcases gateway with e | resp
        · exact ⟨e, rfl, rfl, rfl, rfl⟩
        · exact ⟨phone, amount, rfl, rfl, rfl, rfl⟩

/-- **C4.** The callback endpoint returns the fixed acknowledgement
`{ResultCode: 0, ResultDesc: "Success"}` on every input: absent
`stkCallback` body, unmatched checkout id, successful update, or an
exception during processing. -/
theorem mpesaCallback_always_acks (ledger : List Transaction)
    (cb : CallbackBody) :
    (mpesaCallback ledger cb).2 = successAck := by
  unfold mpesaCallback
  repeat' (first | rfl | split | dsimp only)

/-- `applyUpdate` never changes the row's checkout-request id (no
update object in the source carries that field). -/
theorem applyUpdate_checkoutRequestId (t : Transaction) (u : TxUpdate) :
    (applyUpdate t u).checkoutRequestId = t.checkoutRequestId := rfl

/-- Updating a row that `findByCheckoutRequestId` locates succeeds, and
re-reading the id afterwards yields the merged row. -/
theorem updateTransaction_found (ledger : List Transaction) (ck : String)
    (u : TxUpdate) (tx : Transaction)
    (h : findByCheckoutRequestId ledger ck = some tx) :
    ∃ ledger', updateTransaction ledger ck u = .ok ledger' ∧
      findByCheckoutRequestId ledger' ck = some (applyUpdate tx u) := by
  induction ledger with
  | nil => exact absurd h (by simp [findByCheckoutRequestId])
  | cons t ts ih =>
    by_cases hb : txMatches ck t
    · have htx : t = tx := by
        have := h
        simp only [findByCheckoutRequestId, List.find?_cons, hb] at this
        exact Option.some.inj this
      subst htx
      refine ⟨applyUpdate t u :: ts, ?_, ?_⟩
      · simp [updateTransaction, hb]
      · have hb' : txMatches ck (applyUpdate t u) = true := by
          simp only [txMatches, applyUpdate_checkoutRequestId]
          exact hb
        simp [findByCheckoutRequestId, List.find?_cons, hb']
    · have hb' : txMatches ck t = false := by
        simpa using hb
      have h' : findByCheckoutRequestId ts ck = some tx := by
        simpa [findByCheckoutRequestId, List.find?_cons, hb'] using h
      obtain ⟨ts', hok, hfind⟩ := ih h'
      refine ⟨t :: ts', ?_, ?_⟩
      · simp [updateTransaction, hb', hok, Except.map]
      · simpa [findByCheckoutRequestId, List.find?_cons, hb'] using hfind

/-- One loop iteration's effect on `updateData.amount`. -/
theorem applyCallbackItem_amount (u : TxUpdate) (item : CallbackItem) :
    (applyCallbackItem u item).amount
      = if item.name == "Amount" then some item.value else u.amount := by
  simp only [applyCallbackItem]
  split_ifs <;> rfl

/-- One loop iteration's effect on `updateData.mpesaReceiptNumber`. -/
theorem applyCallbackItem_receipt (u : TxUpdate) (item : CallbackItem) :
    (applyCallbackItem u item).mpesaReceiptNumber
      = if item.name == "MpesaReceiptNumber" then some item.value
        else u.mpesaReceiptNumber := by
  simp only [applyCallbackItem]
  split_ifs <;> rfl

/-- One loop iteration's effect on `updateData.transactionDate`. -/
theorem applyCallbackItem_date (u : TxUpdate) (item : CallbackItem) :
    (applyCallbackItem u item).transactionDate
      = if item.name == "TransactionDate" then some item.value
        else u.transactionDate := by
  simp only [applyCallbackItem]
  split_ifs <;> rfl

/-- One loop iteration's effect on `updateData.phone`. -/
theorem applyCallbackItem_phone (u : TxUpdate) (item : CallbackItem) :
    (applyCallbackItem u item).phone
      = if item.name == "PhoneNumber" then some item.value
        else u.phone := by
  simp only [applyCallbackItem]
  split_ifs <;> rfl

/-- The loop never writes `updateData.status`. -/
theorem applyCallbackItem_status (u : TxUpdate) (item : CallbackItem) :
    (applyCallbackItem u item).status = u.status := by
  simp only [applyCallbackItem]
  split_ifs <;> rfl

/-- The `forEach` loop leaves the last `Amount` item's value. -/
theorem extractCallbackUpdate_amount (items : List CallbackItem) :
    (extractCallbackUpdate items).amount = lastValue items "Amount" := by
  unfold extractCallbackUpdate lastValue
  suffices h : ∀ u : TxUpdate,
      (items.foldl applyCallbackItem u).amount
        = items.foldl (fun acc item =>
            if item.name == "Amount" then some item.value else acc)
          u.amount from h emptyTxUpdate
  induction items with
  | nil => intro u; rfl
  | cons i is ih =>
    intro u
    simp only [List.foldl_cons]
    rw [ih, applyCallbackItem_amount]

/-- The `forEach` loop leaves the last `MpesaReceiptNumber` value. -/
theorem extractCallbackUpdate_receipt (items : List CallbackItem) :
    (extractCallbackUpdate items).mpesaReceiptNumber
      = lastValue items "MpesaReceiptNumber" := by
  unfold extractCallbackUpdate lastValue
  suffices h : ∀ u : TxUpdate,
      (items.foldl applyCallbackItem u).mpesaReceiptNumber
        = items.foldl (fun acc item =>
            if item.name == "MpesaReceiptNumber" then some item.value
            else acc)
          u.mpesaReceiptNumber from h emptyTxUpdate
  induction items with
  | nil => intro u; rfl
  | cons i is ih =>
    intro u
    simp only [List.foldl_cons]
    rw [ih, applyCallbackItem_receipt]

/-- The `forEach` loop leaves the last `TransactionDate` value. -/
theorem extractCallbackUpdate_date (items : List CallbackItem) :
    (extractCallbackUpdate items).transactionDate
      = lastValue items "TransactionDate" := by
  unfold extractCallbackUpdate lastValue
  suffices h : ∀ u : TxUpdate,
      (items.foldl applyCallbackItem u).transactionDate
        = items.foldl (fun acc item =>
            if item.name == "TransactionDate" then some item.value
            else acc)
          u.transactionDate from h emptyTxUpdate
  induction items with
  | nil => intro u; rfl
  | cons i is ih =>
    intro u
    simp only [List.foldl_cons]
    rw [ih, applyCallbackItem_date]

/-- The `forEach` loop leaves the last `PhoneNumber` value. -/
theorem extractCallbackUpdate_phone (items : List CallbackItem) :
    (extractCallbackUpdate items).phone
      = lastValue items "PhoneNumber" := by
  unfold extractCallbackUpdate lastValue
  suffices h : ∀ u : TxUpdate,
      (items.foldl applyCallbackItem u).phone
        = items.foldl (fun acc item =>
            if item.name == "PhoneNumber" then some item.value else acc)
          u.phone from h emptyTxUpdate
  induction items with
  | nil => intro u; rfl
  | cons i is ih =>
    intro u
    simp only [List.foldl_cons]
    rw [ih, applyCallbackItem_phone]

/-- The metadata update never carries a status. -/
theorem extractCallbackUpdate_status (items : List CallbackItem) :
    (extractCallbackUpdate items).status = none := by
  unfold extractCallbackUpdate
  suffices h : ∀ u : TxUpdate,
      (items.foldl applyCallbackItem u).status = u.status from
    h emptyTxUpdate
  induction items with
  | nil => intro u; rfl
  | cons i is ih =>
    intro u
    simp only [List.foldl_cons]
    rw [ih, applyCallbackItem_status]

/-- **C2.** For a callback wrapping `stk`: an unmatched checkout id
mutates no ledger row; a matched id with result code the string `"0"`
sets the row to `completed` and merges the named callback items
(Amount, MpesaReceiptNumber, TransactionDate, PhoneNumber) into it; any
other result code sets the row to `failed` and touches no receipt
field. -/
theorem mpesaCallback_reconciles (ledger : List Transaction)
    (stk : StkCallback) :
    (findByCheckoutRequestId ledger stk.checkoutRequestID = none →
      (mpesaCallback ledger ⟨some stk⟩).1 = ledger) ∧
    (∀ tx, findByCheckoutRequestId ledger stk.checkoutRequestID = some tx →
      (stk.resultCode = .s "0" →
        ∃ tx',
          findByCheckoutRequestId (mpesaCallback ledger ⟨some stk⟩).1
            stk.checkoutRequestID = some tx' ∧
          tx'.status = .completed ∧
          tx'.amount = (metadataValue stk "Amount").getD tx.amount ∧
          tx'.mpesaReceiptNumber
            = ((metadataValue stk "MpesaReceiptNumber").map some).getD
                tx.mpesaReceiptNumber ∧
          tx'.transactionDate
            = ((metadataValue stk "TransactionDate").map some).getD
                tx.transactionDate ∧
          tx'.phone = (metadataValue stk "PhoneNumber").getD tx.phone) ∧
      (stk.resultCode ≠ .s "0" →
        ∃ tx',
          findByCheckoutRequestId (mpesaCallback ledger ⟨some stk⟩).1
            stk.checkoutRequestID = some tx' ∧
          tx'.status = .failed ∧
          tx'.mpesaReceiptNumber = tx.mpesaReceiptNumber ∧
          tx'.transactionDate = tx.transactionDate ∧
          tx'.amount = tx.amount ∧
          tx'.phone = tx.phone)) := by
  refine ⟨?_, ?_⟩
  · intro hn
    unfold mpesaCallback
    dsimp only
    rw [hn]
  · intro tx htx
    constructor
    · intro hrc
      have hbeq : (stk.resultCode == JVal.s "0") = true := by
        rw [hrc]; rfl
      obtain ⟨l1, hok1, hfind1⟩ :=
        updateTransaction_found ledger stk.checkoutRequestID
          { status := some .completed
            resultCode := some stk.resultCode.toStr
            resultDescription := some stk.resultDesc
            callbackData := some ⟨some stk⟩
            amount := none, mpesaReceiptNumber := none
            transactionDate := none, phone := none }
          tx htx
      unfold mpesaCallback
      dsimp only
      rw [htx]
      dsimp only
      rw [if_pos hbeq, hok1]
      dsimp only
      rw [if_pos hbeq]
      cases hmeta : stk.callbackMetadata with
      | none =>
        refine ⟨_, hfind1, ?_, ?_, ?_, ?_, ?_⟩ <;>
          simp [applyUpdate, metadataValue, hmeta]
      | some items =>
        obtain ⟨l2, hok2, hfind2⟩ :=
          updateTransaction_found l1 stk.checkoutRequestID
            (extractCallbackUpdate items) _ hfind1
        dsimp only
        rw [hok2]
        dsimp only
        refine ⟨_, hfind2, ?_, ?_, ?_, ?_, ?_⟩ <;>
          simp [applyUpdate, metadataValue, hmeta,
            extractCallbackUpdate_status, extractCallbackUpdate_amount,
            extractCallbackUpdate_receipt, extractCallbackUpdate_date,
            extractCallbackUpdate_phone]
    · intro hrc
      have hbeq : (stk.resultCode == JVal.s "0") = false :=
        beq_eq_false_iff_ne.mpr hrc
      obtain ⟨l1, hok1, hfind1⟩ :=
        updateTransaction_found ledger stk.checkoutRequestID
          { status := some .failed
            resultCode := some stk.resultCode.toStr
            resultDescription := some stk.resultDesc
            callbackData := some ⟨some stk⟩
            amount := none, mpesaReceiptNumber := none
            transactionDate := none, phone := none }
          tx htx
      have hneg : ¬ ((stk.resultCode == JVal.s "0") = true) := by
        simp [hbeq]
      unfold mpesaCallback
      dsimp only
      rw [htx]
      dsimp only
      rw [if_neg hneg, hok1]
      dsimp only
      rw [if_neg hneg]
      exact ⟨_, hfind1, rfl, rfl, rfl, rfl, rfl⟩

/-- Witness for C2: the sample ledger row is completed and the receipt
`ABC123` merged when the matching callback carries result code `"0"`. -/
theorem mpesaCallback_reconciles_witness :
    ∃ tx',
      findByCheckoutRequestId
        (mpesaCallback sampleLedger ⟨some successStk⟩).1
        successStk.checkoutRequestID = some tx' ∧
      tx'.status = .completed ∧
      tx'.amount = (metadataValue successStk "Amount").getD
        sampleTx.amount ∧
      tx'.mpesaReceiptNumber
        = ((metadataValue successStk "MpesaReceiptNumber").map some).getD
            sampleTx.mpesaReceiptNumber ∧
      tx'.transactionDate
        = ((metadataValue successStk "TransactionDate").map some).getD
            sampleTx.transactionDate ∧
      tx'.phone = (metadataValue successStk "PhoneNumber").getD
        sampleTx.phone :=
  ((mpesaCallback_reconciles sampleLedger successStk).2 sampleTx rfl).1
    rfl

/-- **C3.** A matched callback whose `ResultCode` is the JSON *number*
0 fails the strict string comparison: the row is set to `failed`, the
result code is recorded as `"0"` via `toString`, and the metadata merge
is skipped (receipt fields untouched). -/
theorem mpesaCallback_numeric_zero_fails (ledger : List Transaction)
    (stk : StkCallback) (tx : Transaction)
    (h : findByCheckoutRequestId ledger stk.checkoutRequestID = some tx)
    (hrc : stk.resultCode = .n 0) :
    ∃ tx',
      findByCheckoutRequestId (mpesaCallback ledger ⟨some stk⟩).1
        stk.checkoutRequestID = some tx' ∧
      tx'.status = .failed ∧
      tx'.resultCode = some "0" ∧
      tx'.mpesaReceiptNumber = tx.mpesaReceiptNumber ∧
      tx'.transactionDate = tx.transactionDate ∧
      tx'.amount = tx.amount ∧
      tx'.phone = tx.phone := by
  have hbeq : (stk.resultCode == JVal.s "0") = false := by
    rw [hrc]; rfl
  have hneg : ¬ ((stk.resultCode == JVal.s "0") = true) := by
    simp [hbeq]
  obtain ⟨l1, hok1, hfind1⟩ :=
    updateTransaction_found ledger stk.checkoutRequestID
      { status := some .failed
        resultCode := some stk.resultCode.toStr
        resultDescription := some stk.resultDesc
        callbackData := some ⟨some stk⟩
        amount := none, mpesaReceiptNumber := none
        transactionDate := none, phone := none }
      tx h
  unfold mpesaCallback
  dsimp only
  rw [h]
  dsimp only
  rw [if_neg hneg, hok1]
  dsimp only
  rw [if_neg hneg]
  refine ⟨_, hfind1, rfl, ?_, rfl, rfl, rfl, rfl⟩
  rw [hrc]
  show some (JVal.toStr (.n 0)) = some "0"
  have h0 : JVal.toStr (.n 0) = "0" := by decide
  rw [h0]

/-- Witness for C3: the numeric-zero callback marks the sample row
failed with resultCode `"0"` and does not touch the receipt fields. -/
theorem mpesaCallback_numeric_zero_fails_witness :
    ∃ tx',
      findByCheckoutRequestId
        (mpesaCallback sampleLedger ⟨some numericZeroStk⟩).1
        numericZeroStk.checkoutRequestID = some tx' ∧
      tx'.status = .failed ∧
      tx'.resultCode = some "0" ∧
      tx'.mpesaReceiptNumber = sampleTx.mpesaReceiptNumber ∧
      tx'.transactionDate = sampleTx.transactionDate ∧
      tx'.amount = sampleTx.amount ∧
      tx'.phone = sampleTx.phone :=
  mpesaCallback_numeric_zero_fails sampleLedger numericZeroStk sampleTx
    rfl rfl

end ECommerce
